/-
Verification of the vedro test-scenario orchestrator specification against
its source code, via a shallow embedding in Lean 4.

Embedded components:
  * Seeder plugin (vedro/plugins/seeder/_seeder.py): seed allocation streams.
  * Repeater plugin (vedro/plugins/repeater/_repeater.py): repeat policy.
  * Skipper plugin (vedro/plugins/skipper/_skipper.py): startup selection.
  * StableScenarioOrderer (modelled from the spec; source not in the tree).

Python mutable state is passed explicitly; dicts become association lists
(update-in-place semantics); the injected RandomGenerator becomes an
explicit structure of pure functions (state in, state out); fallible code
returns Option / Except.
-/
import Mathlib

namespace Vedro

/-! ## Random generator interface

The Python plugin receives an injected `RandomGenerator` (interface in
`vedro/plugins/seeder/_random.py`, not in the tree) with operations
`set_seed` (string or int), `get_state` / `set_state`, and
`random_int(lo, hi)` (inclusive bounds).  In explicit-state style the
state is a value of type `S`; `get_state` / `set_state` are projection /
replacement of that value. -/

structure RNG (S : Type) where
  seedNat : Nat → S
  seedStr : String → S
  next : Nat → Nat → S → Nat × S

/-- Modelled from the spec: the `StandardRandomGenerator` of
`vedro/plugins/seeder/_random.py` is not in the tree; the spec only
requires a deterministic pseudo-random stream with seeding, snapshot and
inclusive-range integer draws.  This concrete instance keeps the seed and
a draw counter as the state and spreads the seed so that streams started
from different seeds do not collide with continuations of one stream. -/
def stdRNG : RNG (Nat × Nat) where
  seedNat n := (n, 0)
  seedStr s := (s.data.foldl (fun a c => a * 256 + c.toNat) 0, 0)
  next lo hi st := (lo + ((st.1 + 1) * (2 ^ 32) + st.2) % (hi - lo + 1), (st.1, st.2 + 1))

/-! ## Association lists (Python dict with insertion-order update-in-place) -/

def alookup (k : String) : List (String × Nat) → Option Nat
  | [] => none
  | (k', v) :: rest => if k' = k then some v else alookup k rest

def ainsert (k : String) (v : Nat) : List (String × Nat) → List (String × Nat)
  | [] => [(k, v)]
  | (k', v') :: rest => if k' = k then (k, v) :: rest else (k', v') :: ainsert k v rest

/-! ## Seeder plugin state (`SeederPlugin.__init__`) -/

def MIN_SEED : Nat := 1
def MAX_SEED : Nat := 2 ^ 63 - 1

structure SeederState (S : Type) where
  use_fixed_seed : Bool
  initial_seed : Option String
  discovered_seed : Option Nat
  scheduled_seed : Option Nat
  scheduled_state : Option S
  scenarios : List (String × Nat)
  history : List (String × Nat)
  rng : S

/-- `SeederPlugin._generate_seed`: one inclusive-range draw from the shared
generator. -/
def generateSeed {S : Type} (G : RNG S) (s : S) : Nat × S :=
  G.next MIN_SEED MAX_SEED s

/-- `SeederPlugin.on_arg_parsed`: take the operator seed when supplied,
otherwise a freshly synthesized random string (`str(uuid.uuid4())`,
modelled as the explicit argument `fresh`), and record the fixed-seed
flag. -/
def seederOnArgParsed {S : Type} (st : SeederState S) (argSeed : Option String)
    (fresh : String) (argFixed : Bool) : SeederState S :=
  { st with initial_seed := some (argSeed.getD fresh), use_fixed_seed := argFixed }

/-- The seed-assignment walk in `SeederPlugin.on_startup`: one draw per
discovered scenario, recorded per `unique_id`. -/
def assignSeeds {S : Type} (G : RNG S) :
    List String → List (String × Nat) → S → List (String × Nat) × S
  | [], m, s => (m, s)
  | uid :: rest, m, s =>
    let p := generateSeed G s
    assignSeeds G rest (ainsert uid p.1 m) p.2

/-- `SeederPlugin.on_startup`: seed the shared generator with the run-level
seed, draw the scheduled (overflow) seed, reseed, snapshot, draw the
discovered seed, reseed, then walk the discovered list.  `none` models the
`assert self._initial_seed is not None` failure. -/
def onStartup {S : Type} (G : RNG S) (st : SeederState S) (discovered : List String) :
    Option (SeederState S) :=
  match st.initial_seed with
  | none => none
  | some init =>
    let r0 := G.seedStr init
    let p1 := generateSeed G r0
    let schedSeed := p1.1
    let r2 := G.seedNat schedSeed
    let schedState := r2
    let p2 := generateSeed G r2
    let discSeed := p2.1
    let r4 := G.seedNat discSeed
    let pw := assignSeeds G discovered st.scenarios r4
    some { st with
            scheduled_seed := some schedSeed,
            scheduled_state := some schedState,
            discovered_seed := some discSeed,
            scenarios := pw.1,
            rng := pw.2 }

/-- The non-fixed derivation loop in `SeederPlugin.on_scenario_run`:
`for _ in range(history): seed = self._generate_seed()`, carried out on a
generator previously reseeded; returns the last drawn value (the incoming
value when the count is zero) together with the generator state. -/
def drawLoop {S : Type} (G : RNG S) : Nat → Nat × S → Nat × S
  | 0, p => p
  | n + 1, p =>
    let q := generateSeed G p.2
    drawLoop G n q

/-- `SeederPlugin.on_scenario_run`: bump the per-id history counter, mint a
base seed from the snapshotted scheduled stream when the id is unknown,
reseed the shared generator with the base seed, and in non-fixed mode draw
`history` times and reseed with the final draw.  Returns the effective
seed (the last value handed to `set_seed`) with the new state; `none`
models the `assert self._scheduled_state is not None` failure. -/
def onScenarioRun {S : Type} (G : RNG S) (st : SeederState S) (uid : String) :
    Option (Nat × SeederState S) :=
  let h := (alookup uid st.history).getD 0 + 1
  let st1 : SeederState S := { st with history := ainsert uid h st.history }
  let minted : Option (SeederState S) :=
    match alookup uid st1.scenarios with
    | some _ => some st1
    | none =>
      match st1.scheduled_state with
      | none => none
      | some sst =>
        let p := generateSeed G sst
        some { st1 with scenarios := ainsert uid p.1 st1.scenarios,
                        scheduled_state := some p.2,
                        rng := p.2 }
  minted.bind fun st2 =>
    match alookup uid st2.scenarios with
    | none => none
    | some seed0 =>
      let r0 := G.seedNat seed0
      if st2.use_fixed_seed then
        some (seed0, { st2 with rng := r0 })
      else
        let pN := drawLoop G h (seed0, r0)
        some (pN.1, { st2 with rng := G.seedNat pN.1 })

/-! ## Report (`vedro.core.Report`, as consumed by the plugins) -/

structure Report where
  passed : Nat
  failed : Nat
  skipped : Nat
  summaries : List String
deriving DecidableEq, Repr

/-- `SeederPlugin.on_cleanup`: add the `--seed <value>` summary line only
when the report counts at least one passed or failed scenario. -/
def seederOnCleanup {S : Type} (st : SeederState S) (rep : Report) : Report :=
  if rep.passed + rep.failed > 0 then
    { rep with summaries :=
        rep.summaries ++ ["--seed " ++ (match st.initial_seed with
                                        | some s => s
                                        | none => "None")] }
  else rep

/-! ## Scenarios -/

/-- The slice of `VirtualScenario` the embedded plugins read: the stable
`unique_id`, the path, and the effective skip / only attributes (the
attribute-with-template lookups of `SkipperPlugin._is_scenario_skipped`
and `_is_scenario_special` collapse to one boolean each). -/
structure Scenario where
  unique_id : String
  path : String
  skipped : Bool
  special : Bool
deriving DecidableEq, Repr

/-! ## Repeater plugin (`vedro/plugins/repeater/_repeater.py`) -/

structure RepeaterState where
  repeats : Int
  repeats_delay : Rat
  repeat_scenario_id : Option String
deriving DecidableEq, Repr

/-- An observable call the repeater makes while handling one completion:
an awaited `self._sleep(delay)` or a `self._scheduler.schedule(scenario)`. -/
inductive RepeaterCall where
  | sleep (d : Rat)
  | schedule (sc : Scenario)
deriving DecidableEq, Repr

def RepeaterCall.isSchedule : RepeaterCall → Bool
  | .schedule _ => true
  | .sleep _ => false

def RepeaterCall.isSleep : RepeaterCall → Bool
  | .sleep _ => true
  | .schedule _ => false

/-- `RepeaterPlugin.on_arg_parsed` validation (the three sequential checks,
first failure raised). -/
def repeaterOnArgParsed (repeats : Int) (repeats_delay : Rat) : Except String Unit :=
  if repeats < 1 then .error "--repeats must be >= 1"
  else if repeats_delay < 0 then .error "--repeats-delay must be >= 0.0"
  else if repeats_delay > 0 ∧ repeats ≤ 1 then
    .error "--repeats-delay must be used with --repeats > 1"
  else .ok ()

/-- `RepeaterPlugin.on_scenario_end`: early return when repeats are off or
the same-id guard fires, otherwise remember the id and loop
`repeats - 1` times, awaiting the delay (when nonzero) before each
schedule call.  Returns the new state and the ordered call trace. -/
def onScenarioEnd (st : RepeaterState) (sc : Scenario) :
    RepeaterState × List RepeaterCall :=
  if st.repeats ≤ 1 then (st, [])
  else if st.repeat_scenario_id = some sc.unique_id then (st, [])
  else
    ({ st with repeat_scenario_id := some sc.unique_id },
     List.flatten (List.replicate (st.repeats - 1).toNat
       ((if st.repeats_delay > 0 then [RepeaterCall.sleep st.repeats_delay] else [])
         ++ [RepeaterCall.schedule sc])))

/-- A scenario-completion event.  `RepeaterPlugin.subscribe` registers
`on_scenario_end` for `ScenarioPassedEvent` and `ScenarioFailedEvent`
only; a skipped completion is never delivered to it. -/
inductive CompletionEvent where
  | passed (sc : Scenario)
  | failed (sc : Scenario)
  | skippedEv (sc : Scenario)
deriving DecidableEq, Repr

def CompletionEvent.scenario : CompletionEvent → Scenario
  | .passed sc => sc
  | .failed sc => sc
  | .skippedEv sc => sc

/-- Dispatch of one completion event through the repeater's subscriptions. -/
def dispatchEnd (st : RepeaterState) : CompletionEvent → RepeaterState × List RepeaterCall
  | .passed sc => onScenarioEnd st sc
  | .failed sc => onScenarioEnd st sc
  | .skippedEv _ => (st, [])

/-- Dispatch of a whole run's completion-event sequence; keeps the call
trace of every event in order. -/
def processEvents (st : RepeaterState) :
    List CompletionEvent → RepeaterState × List (List RepeaterCall)
  | [] => (st, [])
  | e :: es =>
    let p := dispatchEnd st e
    let q := processEvents p.1 es
    (q.1, p.2 :: q.2)

/-! ## Skipper plugin startup (`SkipperPlugin.on_startup`)

The scheduler itself (`vedro/core`) is not in the tree; per the spec,
iterating it walks the current pending work-list, and `ignore` removes a
scenario from it without affecting items already consumed.  Since pass 1
only ever ignores the scenario just yielded, it visits every element of
the initial pending list; pass 2 then iterates the survivors. -/

/-- Pass 1 of `SkipperPlugin.on_startup` over the pending list: ignore
what the selection predicate deems ignored, mark skips, detect special
(`@vedro.only`) scenarios, and fail when `forbid_only` meets a special
scenario.  Returns (survivors, ignore-call trace, special ids in
first-seen order, skip-call trace). -/
def skipperPass1 (ignoredP : Scenario → Bool) (forbidOnly : Bool) :
    List Scenario → Except String (List Scenario × List Scenario × List String × List String)
  | [] => .ok ([], [], [], [])
  | sc :: rest =>
    if ignoredP sc then
      (skipperPass1 ignoredP forbidOnly rest).map fun r =>
        (r.1, sc :: r.2.1, r.2.2.1, r.2.2.2)
    else
      let skips := if sc.skipped then [sc.unique_id] else []
      if sc.special && forbidOnly then
        .error ("Scenario '" ++ sc.unique_id ++ "' has @vedro.only, but " ++
                "'forbid_only' option is enabled")
      else
        let specials := if sc.special then [sc.unique_id] else []
        (skipperPass1 ignoredP forbidOnly rest).map fun r =>
          (sc :: r.1, r.2.1, specials ++ r.2.2.1, skips ++ r.2.2.2)

/-- Pass 2 of `SkipperPlugin.on_startup` over the surviving pending list:
ignore every scenario whose `unique_id` is not in the special set.
Returns (survivors, ignore-call trace). -/
def skipperPass2 (specials : List String) :
    List Scenario → List Scenario × List Scenario
  | [] => ([], [])
  | sc :: rest =>
    let r := skipperPass2 specials rest
    if sc.unique_id ∈ specials then (sc :: r.1, r.2) else (r.1, sc :: r.2)

/-- `SkipperPlugin.on_startup`: pass 1 always; pass 2 only when at least
one special scenario was found.  Returns (final pending list,
pass-1 ignore trace, pass-2 ignore trace, special ids). -/
def skipperOnStartup (ignoredP : Scenario → Bool) (forbidOnly : Bool)
    (pending : List Scenario) :
    Except String (List Scenario × List Scenario × List Scenario × List String) :=
  (skipperPass1 ignoredP forbidOnly pending).map fun r =>
    let survivors := r.1
    let specials := r.2.2.1
    if specials.length > 0 then
      let p2 := skipperPass2 specials survivors
      (p2.1, r.2.1, p2.2, specials)
    else
      (survivors, r.2.1, [], specials)

/-! ## Scenario ordering engine

`vedro.core.scenario_orderer.StableScenarioOrderer` is not in the tree
(only its test is); it is modelled from the spec, section 4.3. -/

def isDigitCode (c : Nat) : Bool := 48 ≤ c && c ≤ 57

/-- Consume a leading digit run, returning its integer value (onto the
accumulator) and the remaining characters. -/
def digitSpan : List Nat → Nat → Nat × List Nat
  | [], acc => (acc, [])
  | c :: cs, acc =>
    if isDigitCode c then digitSpan cs (acc * 10 + (c - 48)) else (acc, c :: cs)

/-- Modelled from the spec: the natural-order comparator — embedded digit
runs compared as integers, other characters by code point.  Fuel-driven
recursion (the fuel in `natCmp` covers both inputs). -/
def natCmpFuel : Nat → List Nat → List Nat → Ordering
  | 0, _, _ => .eq
  | _ + 1, [], [] => .eq
  | _ + 1, [], _ :: _ => .lt
  | _ + 1, _ :: _, [] => .gt
  | f + 1, a :: as, b :: bs =>
    if isDigitCode a && isDigitCode b then
      let pa := digitSpan (a :: as) 0
      let pb := digitSpan (b :: bs) 0
      if pa.1 < pb.1 then .lt
      else if pb.1 < pa.1 then .gt
      else natCmpFuel f pa.2 pb.2
    else if a < b then .lt
    else if b < a then .gt
    else natCmpFuel f as bs

def natCmp (a b : List Nat) : Ordering :=
  natCmpFuel (a.length + b.length + 1) a b

/-- Modelled from the spec: the ordering engine's depth-first pre-order
tree walk induces this total comparison on slash-split paths — at each
level a file directly in the directory precedes any deeper path, files
and sibling directories compare by natural order of name, equal directory
names recurse. -/
def segCmp : List (List Nat) → List (List Nat) → Ordering
  | [], [] => .eq
  | [], _ :: _ => .lt
  | _ :: _, [] => .gt
  | [a], [b] => natCmp a b
  | [_], _ :: _ :: _ => .lt
  | _ :: _ :: _, [_] => .gt
  | a :: as, b :: bs =>
    match natCmp a b with
    | .eq => segCmp as bs
    | o => o

/-- Split a character-code list on `/` (code 47) into path segments. -/
def splitSegs : List Nat → List Nat → List (List Nat)
  | [], acc => [acc.reverse]
  | c :: cs, acc =>
    if c = 47 then acc.reverse :: splitSegs cs [] else splitSegs cs (c :: acc)

def pathKey (p : String) : List (List Nat) :=
  splitSegs (p.data.map Char.toNat) []

def insertPath (a : String) : List String → List String
  | [] => [a]
  | b :: bs =>
    if segCmp (pathKey a) (pathKey b) = .gt then b :: insertPath a bs
    else a :: b :: bs

/-- Modelled from the spec: `StableScenarioOrderer.sort` — the pure
function from the discovered scenario paths to the deterministic
execution sequence, expressed as sorting by the tree pre-order
comparison (pure, so the input list is never mutated). -/
def sortScenarios : List String → List String
  | [] => []
  | a :: as => insertPath a (sortScenarios as)

/-! ## Concrete fixtures used by counterexamples and witnesses -/

/-- A fresh seeder state as `SeederPlugin.__init__` leaves it, with the
run-level seed already parsed as the string `"a"`. -/
def seederA : SeederState (Nat × Nat) :=
  { use_fixed_seed := false, initial_seed := some "a",
    discovered_seed := none, scheduled_seed := none, scheduled_state := none,
    scenarios := [], history := [], rng := (0, 0) }

/-- The stable-orderer example path set, in its required output order. -/
def targetPaths : List String :=
  ["scenarios/scn2.py", "scenarios/scn10.py", "scenarios/dir1/scn1.py",
   "scenarios/dir1/scn2.py", "scenarios/dir2/scn2.py", "scenarios/directory/scn.py"]

/-- The seed-range invariant of C10: every recorded or produced seed lies
in `[MIN_SEED, MAX_SEED]`. -/
def InSeedRange (n : Nat) : Prop := MIN_SEED ≤ n ∧ n ≤ MAX_SEED

/-- C10's state invariant over the allocator's integer seeds. -/
def SeedsInv {S : Type} (st : SeederState S) : Prop :=
  (∀ p ∈ st.scenarios, InSeedRange p.2) ∧
  (∀ v, st.scheduled_seed = some v → InSeedRange v) ∧
  (∀ v, st.discovered_seed = some v → InSeedRange v)

/-! # Theorems -/

/-! ### Seeder helper lemmas -/

theorem alookup_ainsert_self (k : String) (v : Nat) (m : List (String × Nat)) :
    alookup k (ainsert k v m) = some v := by
  induction m with
  | nil => simp [ainsert, alookup]
  | cons p rest ih =>
    obtain ⟨k', v'⟩ := p
    by_cases h : k' = k
    · simp [ainsert, alookup, h]
    · simp [ainsert, alookup, h, ih]

theorem alookup_ainsert_ne (k k' : String) (v : Nat) (m : List (String × Nat))
    (h : k' ≠ k) : alookup k' (ainsert k v m) = alookup k' m := by
  have hk : ¬ k = k' := fun hh => h hh.symm
  induction m with
  | nil => simp [ainsert, alookup, hk]
  | cons p rest ih =>
    obtain ⟨k0, v0⟩ := p
    by_cases h0 : k0 = k
    · subst h0
      simp [ainsert, alookup, hk]
    · simp [ainsert, alookup, h0, ih]


theorem onScenarioRun_known {S : Type} (G : RNG S) (st : SeederState S) (uid : String)
    (base : Nat) (hb : alookup uid st.scenarios = some base)
    (hfix : st.use_fixed_seed = false) :
    onScenarioRun G st uid =
      some ((drawLoop G ((alookup uid st.history).getD 0 + 1) (base, G.seedNat base)).1,
            { st with
                history := ainsert uid ((alookup uid st.history).getD 0 + 1) st.history,
                rng := G.seedNat
                  (drawLoop G ((alookup uid st.history).getD 0 + 1) (base, G.seedNat base)).1 }) := by
  simp [onScenarioRun, hb, hfix, Option.bind]

theorem onScenarioRun_known_fixed {S : Type} (G : RNG S) (st : SeederState S) (uid : String)
    (base : Nat) (hb : alookup uid st.scenarios = some base)
    (hfix : st.use_fixed_seed = true) :
    onScenarioRun G st uid =
      some (base,
            { st with
                history := ainsert uid ((alookup uid st.history).getD 0 + 1) st.history,
                rng := G.seedNat base }) := by
  simp [onScenarioRun, hb, hfix, Option.bind]

theorem generateSeed_std (b c : Nat) :
    generateSeed stdRNG (b, c) =
      (1 + ((b + 1) * 2 ^ 32 + c) % (2 ^ 63 - 1), (b, c + 1)) := rfl

theorem drawLoop_std (n b c v : Nat) :
    (drawLoop stdRNG (n + 1) (v, (b, c))).1 =
      1 + ((b + 1) * 2 ^ 32 + (c + n)) % (2 ^ 63 - 1) := by
  induction n generalizing v c with
  | zero => simp [drawLoop, generateSeed_std]
  | succ m ih =>
    have step : drawLoop stdRNG (m + 2) (v, (b, c)) =
        drawLoop stdRNG (m + 1) (1 + ((b + 1) * 2 ^ 32 + c) % (2 ^ 63 - 1), (b, c + 1)) := rfl
    rw [step, ih]
    congr 1
    omega

theorem mod_shift_ne (x i j R : Nat) (hij : i < j) (hR : j - i < R) :
    (x + i) % R ≠ (x + j) % R := by
  intro h
  have h1 : x + i ≤ x + j := by omega
  have h2 : R ∣ (x + j) - (x + i) := (Nat.modEq_iff_dvd' h1).mp h
  have h3 : R ≤ (x + j) - (x + i) := Nat.le_of_dvd (by omega) h2
  omega

/-! ### C1: per-execution seed derivation -/

/-- C1: for a scenario whose `unique_id` has been run `k` times before,
`on_scenario_run` sets, as the effective seed, the `(k+1)`-th draw of a
generator seeded with the scenario's base seed when fixed-seed mode is
off, and the base seed unmodified when it is on; hence three runs of one
scenario give pairwise distinct effective seeds with `fixedSeed=false`
and three equal ones (the base seed) with `fixedSeed=true`. -/
theorem seeder_per_execution_derivation :
    (∀ (S : Type) (G : RNG S) (st : SeederState S) (uid : String) (base k : Nat),
       alookup uid st.scenarios = some base →
       (alookup uid st.history).getD 0 = k →
       st.use_fixed_seed = false →
       (onScenarioRun G st uid).map Prod.fst =
         some (drawLoop G (k + 1) (base, G.seedNat base)).1) ∧
    (∀ (S : Type) (G : RNG S) (st : SeederState S) (uid : String) (base k : Nat),
       alookup uid st.scenarios = some base →
       (alookup uid st.history).getD 0 = k →
       st.use_fixed_seed = true →
       (onScenarioRun G st uid).map Prod.fst = some base) ∧
    (∀ (st : SeederState (Nat × Nat)) (uid : String) (base : Nat),
       alookup uid st.scenarios = some base →
       alookup uid st.history = none →
       st.use_fixed_seed = false →
       ∃ e1 st1 e2 st2 e3 st3,
         onScenarioRun stdRNG st uid = some (e1, st1) ∧
         onScenarioRun stdRNG st1 uid = some (e2, st2) ∧
         onScenarioRun stdRNG st2 uid = some (e3, st3) ∧
         e1 ≠ e2 ∧ e1 ≠ e3 ∧ e2 ≠ e3) ∧
    (∀ (st : SeederState (Nat × Nat)) (uid : String) (base : Nat),
       alookup uid st.scenarios = some base →
       alookup uid st.history = none →
       st.use_fixed_seed = true →
       ∃ st1 st2 st3,
         onScenarioRun stdRNG st uid = some (base, st1) ∧
         onScenarioRun stdRNG st1 uid = some (base, st2) ∧
         onScenarioRun stdRNG st2 uid = some (base, st3)) := by
  have key : ∀ (base i j : Nat), i < j → j - i < 2 ^ 63 - 1 →
      1 + ((base + 1) * 2 ^ 32 + i) % (2 ^ 63 - 1) ≠
        1 + ((base + 1) * 2 ^ 32 + j) % (2 ^ 63 - 1) := by
    intro base i j hij hR heq
    exact mod_shift_ne ((base + 1) * 2 ^ 32) i j (2 ^ 63 - 1) hij hR
      (Nat.add_left_cancel heq)
  refine ⟨?_, ?_, ?_, ?_⟩
  · intro S G st uid base k hb hk hfix
    rw [onScenarioRun_known G st uid base hb hfix, hk]
    rfl
  · intro S G st uid base k hb hk hfix
    rw [onScenarioRun_known_fixed G st uid base hb hfix]
    rfl
  · intro st uid base hb hh hfix
    have k0 : (alookup uid st.history).getD 0 = 0 := by rw [hh]; rfl
    have h1 := onScenarioRun_known stdRNG st uid base hb hfix
    rw [k0] at h1
    set sA : SeederState (Nat × Nat) :=
      { st with history := ainsert uid (0 + 1) st.history,
                rng := stdRNG.seedNat (drawLoop stdRNG (0 + 1) (base, stdRNG.seedNat base)).1 }
      with hsA
    have hbA : alookup uid sA.scenarios = some base := hb
    have kA : (alookup uid sA.history).getD 0 = 1 := by
      simp [hsA, alookup_ainsert_self]
    have h2 := onScenarioRun_known stdRNG sA uid base hbA hfix
    rw [kA] at h2
    set sB : SeederState (Nat × Nat) :=
      { sA with history := ainsert uid (1 + 1) sA.history,
                rng := stdRNG.seedNat (drawLoop stdRNG (1 + 1) (base, stdRNG.seedNat base)).1 }
      with hsB
    have hbB : alookup uid sB.scenarios = some base := hb
    have kB : (alookup uid sB.history).getD 0 = 2 := by
      simp [hsB, alookup_ainsert_self]
    have h3 := onScenarioRun_known stdRNG sB uid base hbB hfix
    rw [kB] at h3
    have e1v : (drawLoop stdRNG (0 + 1) (base, stdRNG.seedNat base)).1 =
        1 + ((base + 1) * 2 ^ 32 + 0) % (2 ^ 63 - 1) := by
      have := drawLoop_std 0 base 0 base
      simpa using this
    have e2v : (drawLoop stdRNG (1 + 1) (base, stdRNG.seedNat base)).1 =
        1 + ((base + 1) * 2 ^ 32 + 1) % (2 ^ 63 - 1) := by
      have := drawLoop_std 1 base 0 base
      simpa using this
    have e3v : (drawLoop stdRNG (2 + 1) (base, stdRNG.seedNat base)).1 =
        1 + ((base + 1) * 2 ^ 32 + 2) % (2 ^ 63 - 1) := by
      have := drawLoop_std 2 base 0 base
      simpa using this
    refine ⟨_, _, _, _, _, _, h1, h2, h3, ?_, ?_, ?_⟩
    · rw [e1v, e2v]
      exact key base 0 1 (by omega) (by norm_num)
    · rw [e1v, e3v]
      exact key base 0 2 (by omega) (by norm_num)
    · rw [e2v, e3v]
      exact key base 1 2 (by omega) (by norm_num)
  · intro st uid base hb hh hfix
    have k0 : (alookup uid st.history).getD 0 = 0 := by rw [hh]; rfl
    have h1 := onScenarioRun_known_fixed stdRNG st uid base hb hfix
    rw [k0] at h1
    set sA : SeederState (Nat × Nat) :=
      { st with history := ainsert uid (0 + 1) st.history,
                rng := stdRNG.seedNat base } with hsA
    have hbA : alookup uid sA.scenarios = some base := hb
    have kA : (alookup uid sA.history).getD 0 = 1 := by
      simp [hsA, alookup_ainsert_self]
    have h2 := onScenarioRun_known_fixed stdRNG sA uid base hbA hfix
    rw [kA] at h2
    set sB : SeederState (Nat × Nat) :=
      { sA with history := ainsert uid (1 + 1) sA.history,
                rng := stdRNG.seedNat base } with hsB
    have hbB : alookup uid sB.scenarios = some base := hb
    have kB : (alookup uid sB.history).getD 0 = 2 := by
      simp [hsB, alookup_ainsert_self]
    have h3 := onScenarioRun_known_fixed stdRNG sB uid base hbB hfix
    rw [kB] at h3
    exact ⟨_, _, _, h1, h2, h3⟩

/-- Witness for C1: the first conjunct applied to a concrete state whose
scenario `"s"` has base seed `5` and no history. -/
theorem seeder_per_execution_derivation_witness :
    (onScenarioRun stdRNG
        { use_fixed_seed := false, initial_seed := some "a",
          discovered_seed := none, scheduled_seed := none, scheduled_state := none,
          scenarios := [("s", 5)], history := [], rng := ((0 : Nat), (0 : Nat)) }
        "s").map Prod.fst =
      some (drawLoop stdRNG (0 + 1) (5, stdRNG.seedNat 5)).1 :=
  seeder_per_execution_derivation.1 (Nat × Nat) stdRNG _ "s" 5 0 (by decide) (by decide) rfl

/-! ### C3: stream derivation and overflow isolation -/

theorem onScenarioRun_unknown {S : Type} (G : RNG S) (st : SeederState S) (uid : String)
    (sst : S) (hb : alookup uid st.scenarios = none) (hs : st.scheduled_state = some sst) :
    onScenarioRun G st uid =
      (if st.use_fixed_seed then
        some ((generateSeed G sst).1,
          { st with
              history := ainsert uid ((alookup uid st.history).getD 0 + 1) st.history,
              scenarios := ainsert uid (generateSeed G sst).1 st.scenarios,
              scheduled_state := some (generateSeed G sst).2,
              rng := G.seedNat (generateSeed G sst).1 })
      else
        some ((drawLoop G ((alookup uid st.history).getD 0 + 1)
                 ((generateSeed G sst).1, G.seedNat (generateSeed G sst).1)).1,
          { st with
              history := ainsert uid ((alookup uid st.history).getD 0 + 1) st.history,
              scenarios := ainsert uid (generateSeed G sst).1 st.scenarios,
              scheduled_state := some (generateSeed G sst).2,
              rng := G.seedNat (drawLoop G ((alookup uid st.history).getD 0 + 1)
                 ((generateSeed G sst).1, G.seedNat (generateSeed G sst).1)).1 })) := by
  cases hf : st.use_fixed_seed <;>
    simp [onScenarioRun, hb, hs, hf, alookup_ainsert_self, Option.bind]

/-- C3 counterexample: with the modelled generator, a run-level seed `"a"`
and one discovered scenario `"s"`, the base seed `on_startup` assigns to
`"s"` is neither the first nor the second draw of a generator seeded with
the run-level seed — so the discovery stream is not seeded (directly)
from the run-level seed as the claim states: the code first draws the
overflow (scheduled) seed from the run-level stream, reseeds with it,
draws the discovery seed from that overflow-seeded stream, and only then
reseeds and walks the discovered list. -/
theorem seeder_stream_derivation_counterexample :
    ((onStartup stdRNG
        { use_fixed_seed := false, initial_seed := some "a",
          discovered_seed := none, scheduled_seed := none, scheduled_state := none,
          scenarios := [], history := [], rng := ((0 : Nat), (0 : Nat)) }
        ["s"]).bind fun st' => alookup "s" st'.scenarios) ≠
      some (generateSeed stdRNG (stdRNG.seedStr "a")).1 ∧
    ((onStartup stdRNG
        { use_fixed_seed := false, initial_seed := some "a",
          discovered_seed := none, scheduled_seed := none, scheduled_state := none,
          scenarios := [], history := [], rng := ((0 : Nat), (0 : Nat)) }
        ["s"]).bind fun st' => alookup "s" st'.scenarios) ≠
      some (generateSeed stdRNG (generateSeed stdRNG (stdRNG.seedStr "a")).2).1 := by
  constructor <;> decide

/-- C3 (amended): the overflow (scheduled) stream is seeded from the first
value drawn off a generator seeded with the run-level seed; the discovery
stream is seeded from one value drawn off the overflow-seeded generator
(after the overflow snapshot is taken, so that draw does not advance the
snapshot); and the overflow stream's state is snapshotted after each
minting and restored before the next, so an overflow-minted base seed and
the successor snapshot depend only on the stored snapshot — draws by
other consumers of the shared generator in between cannot change them. -/
theorem seeder_stream_derivation :
    (∀ (S : Type) (G : RNG S) (st : SeederState S) (disc : List String) (init : String),
       st.initial_seed = some init →
       onStartup G st disc =
         some { st with
                 scheduled_seed := some (generateSeed G (G.seedStr init)).1,
                 scheduled_state := some (G.seedNat (generateSeed G (G.seedStr init)).1),
                 discovered_seed :=
                   some (generateSeed G (G.seedNat (generateSeed G (G.seedStr init)).1)).1,
                 scenarios := (assignSeeds G disc st.scenarios
                   (G.seedNat
                     (generateSeed G (G.seedNat (generateSeed G (G.seedStr init)).1)).1)).1,
                 rng := (assignSeeds G disc st.scenarios
                   (G.seedNat
                     (generateSeed G (G.seedNat (generateSeed G (G.seedStr init)).1)).1)).2 }) ∧
    (∀ (S : Type) (G : RNG S) (st : SeederState S) (uid : String) (sst : S),
       alookup uid st.scenarios = none →
       st.scheduled_state = some sst →
       (onScenarioRun G st uid).map
           (fun x => (alookup uid x.2.scenarios, x.2.scheduled_state)) =
         some (some (generateSeed G sst).1, some (generateSeed G sst).2)) ∧
    (∀ (S : Type) (G : RNG S) (s s' : SeederState S) (uid : String) (sst : S),
       s.scheduled_state = some sst → s'.scheduled_state = some sst →
       alookup uid s.scenarios = none → alookup uid s'.scenarios = none →
       (onScenarioRun G s uid).map
           (fun x => (alookup uid x.2.scenarios, x.2.scheduled_state)) =
         (onScenarioRun G s' uid).map
           (fun x => (alookup uid x.2.scenarios, x.2.scheduled_state))) := by
  have mintProj : ∀ (S : Type) (G : RNG S) (st : SeederState S) (uid : String) (sst : S),
      alookup uid st.scenarios = none → st.scheduled_state = some sst →
      (onScenarioRun G st uid).map
          (fun x => (alookup uid x.2.scenarios, x.2.scheduled_state)) =
        some (some (generateSeed G sst).1, some (generateSeed G sst).2) := by
    intro S G st uid sst hb hs
    rw [onScenarioRun_unknown G st uid sst hb hs]
    cases hf : st.use_fixed_seed <;> simp [alookup_ainsert_self]
  refine ⟨?_, mintProj, ?_⟩
  · intro S G st disc init hinit
    simp [onStartup, hinit]
  · intro S G s s' uid sst hs hs' hb hb'
    rw [mintProj S G s uid sst hb hs, mintProj S G s' uid sst hb' hs']

/-- Witness for C3: the amended startup derivation applied to a concrete
state with run-level seed `"a"` and one discovered scenario. -/
theorem seeder_stream_derivation_witness :
    onStartup stdRNG
        { use_fixed_seed := false, initial_seed := some "a",
          discovered_seed := none, scheduled_seed := none, scheduled_state := none,
          scenarios := [], history := [], rng := ((0 : Nat), (0 : Nat)) }
        ["s"] =
      some { use_fixed_seed := false, initial_seed := some "a",
             history := [],
             scheduled_seed := some (generateSeed stdRNG (stdRNG.seedStr "a")).1,
             scheduled_state :=
               some (stdRNG.seedNat (generateSeed stdRNG (stdRNG.seedStr "a")).1),
             discovered_seed :=
               some (generateSeed stdRNG
                 (stdRNG.seedNat (generateSeed stdRNG (stdRNG.seedStr "a")).1)).1,
             scenarios := (assignSeeds stdRNG ["s"] []
               (stdRNG.seedNat
                 (generateSeed stdRNG
                   (stdRNG.seedNat (generateSeed stdRNG (stdRNG.seedStr "a")).1)).1)).1,
             rng := (assignSeeds stdRNG ["s"] []
               (stdRNG.seedNat
                 (generateSeed stdRNG
                   (stdRNG.seedNat (generateSeed stdRNG (stdRNG.seedStr "a")).1)).1)).2 } :=
  seeder_stream_derivation.1 (Nat × Nat) stdRNG _ ["s"] "a" rfl

/-! ### C4: two-run determinism of the startup walk -/

/-- C4: two startup walks given the same run-level seed and the same
discovered list produce identical per-`unique_id` base-seed mappings,
whatever the prior shared-generator states or fixed-seed flags were. -/
theorem seeder_two_run_determinism :
    ∀ (S : Type) (G : RNG S) (s1 s2 : SeederState S) (disc : List String) (init : String),
      s1.initial_seed = some init → s2.initial_seed = some init →
      s1.scenarios = s2.scenarios →
      (onStartup G s1 disc).map SeederState.scenarios =
        (onStartup G s2 disc).map SeederState.scenarios := by
  intro S G s1 s2 disc init h1 h2 h3
  simp [onStartup, h1, h2, h3]

/-- Witness for C4: two states sharing seed `"a"` but differing in the
fixed-seed flag, the shared-generator state and the history. -/
theorem seeder_two_run_determinism_witness :
    (onStartup stdRNG
        { use_fixed_seed := false, initial_seed := some "a",
          discovered_seed := none, scheduled_seed := none, scheduled_state := none,
          scenarios := [], history := [], rng := ((0 : Nat), (0 : Nat)) }
        ["s1", "s2"]).map SeederState.scenarios =
      (onStartup stdRNG
        { use_fixed_seed := true, initial_seed := some "a",
          discovered_seed := none, scheduled_seed := none, scheduled_state := none,
          scenarios := [], history := [("x", 7)], rng := ((3 : Nat), (9 : Nat)) }
        ["s1", "s2"]).map SeederState.scenarios :=
  seeder_two_run_determinism (Nat × Nat) stdRNG _ _ ["s1", "s2"] "a" rfl rfl rfl

/-! ### C9: seed synthesis and reporting -/

/-- C9 counterexample: in a run whose report counts no passed and no
failed scenarios (five skipped), `on_cleanup` adds no `--seed` summary
line at all, refuting "reports the effective seed value ... in every
run". -/
theorem seeder_seed_reporting_counterexample :
    ¬ ("--seed a" ∈ (seederOnCleanup
        { use_fixed_seed := false, initial_seed := some "a",
          discovered_seed := none, scheduled_seed := none,
          scheduled_state := (none : Option (Nat × Nat)),
          scenarios := [], history := [], rng := ((0 : Nat), (0 : Nat)) }
        { passed := 0, failed := 0, skipped := 5, summaries := [] }).summaries) := by
  decide

/-- C9 (amended): when the operator supplies no run-level seed a random
one is synthesized (the supplied value is used exactly otherwise), and
the effective value is reported as a `--seed <value>` summary line at
cleanup in every run that counts at least one passed or failed scenario;
a run with none of either gets no summary line. -/
theorem seeder_seed_reporting :
    (∀ (S : Type) (st : SeederState S) (fresh v : String) (fixed : Bool),
       (seederOnArgParsed st (some v) fresh fixed).initial_seed = some v) ∧
    (∀ (S : Type) (st : SeederState S) (fresh : String) (fixed : Bool),
       (seederOnArgParsed st none fresh fixed).initial_seed = some fresh) ∧
    (∀ (S : Type) (st : SeederState S) (rep : Report) (s : String),
       st.initial_seed = some s → 0 < rep.passed + rep.failed →
       (seederOnCleanup st rep).summaries = rep.summaries ++ ["--seed " ++ s]) ∧
    (∀ (S : Type) (st : SeederState S) (rep : Report),
       rep.passed + rep.failed = 0 → seederOnCleanup st rep = rep) := by
  refine ⟨?_, ?_, ?_, ?_⟩
  · intro S st fresh v fixed
    simp [seederOnArgParsed]
  · intro S st fresh fixed
    simp [seederOnArgParsed]
  · intro S st rep s hinit hpf
    simp [seederOnCleanup, hinit, hpf]
  · intro S st rep hpf
    simp [seederOnCleanup, hpf]

/-- Witness for C9: the reporting branch applied to a run with one passed
scenario and seed `"a"`. -/
theorem seeder_seed_reporting_witness :
    (seederOnCleanup
        { use_fixed_seed := false, initial_seed := some "a",
          discovered_seed := none, scheduled_seed := none,
          scheduled_state := (none : Option (Nat × Nat)),
          scenarios := [], history := [], rng := ((0 : Nat), (0 : Nat)) }
        { passed := 1, failed := 0, skipped := 0, summaries := [] }).summaries =
      [] ++ ["--seed " ++ "a"] :=
  seeder_seed_reporting.2.2.1 (Nat × Nat) _ _ "a" rfl (by decide)

/-! ### C10: seed-range invariant -/

theorem alookup_mem (k : String) (v : Nat) (m : List (String × Nat))
    (h : alookup k m = some v) : (k, v) ∈ m := by
  induction m with
  | nil => simp [alookup] at h
  | cons p rest ih =>
    obtain ⟨k0, v0⟩ := p
    by_cases h0 : k0 = k
    · subst h0
      simp [alookup] at h
      simp [h]
    · simp [alookup, h0] at h
      exact List.mem_cons_of_mem _ (ih h)

theorem mem_ainsert (k : String) (v : Nat) (m : List (String × Nat))
    (p : String × Nat) (h : p ∈ ainsert k v m) : p = (k, v) ∨ p ∈ m := by
  induction m with
  | nil =>
    simp [ainsert] at h
    exact Or.inl h
  | cons q rest ih =>
    obtain ⟨k0, v0⟩ := q
    by_cases h0 : k0 = k
    · subst h0
      simp only [ainsert, if_pos rfl] at h
      rcases List.mem_cons.mp h with h | h
      · exact Or.inl h
      · exact Or.inr (List.mem_cons_of_mem _ h)
    · simp only [ainsert, if_neg h0] at h
      rcases List.mem_cons.mp h with h | h
      · exact Or.inr (List.mem_cons.mpr (Or.inl h))
      · rcases ih h with h | h
        · exact Or.inl h
        · exact Or.inr (List.mem_cons_of_mem _ h)

theorem assignSeeds_range {S : Type} (G : RNG S)
    (HR : ∀ s : S, InSeedRange (generateSeed G s).1) :
    ∀ (l : List String) (m : List (String × Nat)) (s : S),
      (∀ p ∈ m, InSeedRange p.2) → ∀ p ∈ (assignSeeds G l m s).1, InSeedRange p.2 := by
  intro l
  induction l with
  | nil =>
    intro m s hm p hp
    exact hm p hp
  | cons uid rest ih =>
    intro m s hm p hp
    simp only [assignSeeds] at hp
    refine ih (ainsert uid (generateSeed G s).1 m) (generateSeed G s).2 ?_ p hp
    intro q hq
    rcases mem_ainsert _ _ _ _ hq with h | h
    · rw [h]
      exact HR s
    · exact hm q h

theorem drawLoop_range {S : Type} (G : RNG S)
    (HR : ∀ s : S, InSeedRange (generateSeed G s).1) :
    ∀ (n : Nat) (v : Nat) (s : S), InSeedRange v → InSeedRange (drawLoop G n (v, s)).1 := by
  intro n
  induction n with
  | zero =>
    intro v s hv
    simpa [drawLoop] using hv
  | succ m ih =>
    intro v s hv
    simpa [drawLoop] using ih (generateSeed G s).1 (generateSeed G s).2 (HR s)

/-- C10: every integer seed the allocator records or produces — the
scheduled (overflow) seed, the discovered seed, every base seed whether
assigned at startup or minted for an unseen id at execution time, and
every effective seed — lies in `[MIN_SEED, MAX_SEED] = [1, 2^63 - 1]`,
and the invariant is preserved by every operation of the allocator,
assuming the generator honors the inclusive range of `random_int`. -/
theorem seeder_seed_range :
    ∀ (S : Type) (G : RNG S),
      (∀ s : S, InSeedRange (generateSeed G s).1) →
      (∀ (st : SeederState S) (disc : List String) (st' : SeederState S),
         SeedsInv st → onStartup G st disc = some st' → SeedsInv st') ∧
      (∀ (st : SeederState S) (uid : String) (e : Nat) (st' : SeederState S),
         SeedsInv st → onScenarioRun G st uid = some (e, st') →
         SeedsInv st' ∧ InSeedRange e) ∧
      (∀ (st : SeederState S) (a : Option String) (f : String) (fx : Bool),
         SeedsInv st → SeedsInv (seederOnArgParsed st a f fx)) := by
  intro S G HR
  refine ⟨?_, ?_, ?_⟩
  · intro st disc st' hinv hrun
    cases hinit : st.initial_seed with
    | none => simp [onStartup, hinit] at hrun
    | some init =>
      simp only [onStartup, hinit, Option.some.injEq] at hrun
      subst hrun
      refine ⟨?_, ?_, ?_⟩
      · exact assignSeeds_range G HR disc st.scenarios _ hinv.1
      · intro v hv
        simp only [Option.some.injEq] at hv
        rw [← hv]
        exact HR _
      · intro v hv
        simp only [Option.some.injEq] at hv
        rw [← hv]
        exact HR _
  · intro st uid e st' hinv hrun
    cases hsc : alookup uid st.scenarios with
    | some base =>
      have hbase : InSeedRange base := hinv.1 (uid, base) (alookup_mem _ _ _ hsc)
      cases hf : st.use_fixed_seed with
      | false =>
        rw [onScenarioRun_known G st uid base hsc hf] at hrun
        simp only [Option.some.injEq, Prod.mk.injEq] at hrun
        obtain ⟨he, hst⟩ := hrun
        subst he
        subst hst
        exact ⟨⟨hinv.1, hinv.2.1, hinv.2.2⟩, drawLoop_range G HR _ base _ hbase⟩
      | true =>
        rw [onScenarioRun_known_fixed G st uid base hsc hf] at hrun
        simp only [Option.some.injEq, Prod.mk.injEq] at hrun
        obtain ⟨he, hst⟩ := hrun
        subst he
        subst hst
        exact ⟨⟨hinv.1, hinv.2.1, hinv.2.2⟩, hbase⟩
    | none =>
      cases hss : st.scheduled_state with
      | none => simp [onScenarioRun, hsc, hss] at hrun
      | some sst =>
        have hmint : InSeedRange (generateSeed G sst).1 := HR sst
        have hmap : ∀ p ∈ ainsert uid (generateSeed G sst).1 st.scenarios, InSeedRange p.2 := by
          intro q hq
          rcases mem_ainsert _ _ _ _ hq with h | h
          · rw [h]
            exact hmint
          · exact hinv.1 q h
        rw [onScenarioRun_unknown G st uid sst hsc hss] at hrun
        cases hf : st.use_fixed_seed with
        | false =>
          rw [hf] at hrun
          simp only [if_neg (by simp : ¬ (false = true)), Option.some.injEq,
            Prod.mk.injEq] at hrun
          obtain ⟨he, hst⟩ := hrun
          subst he
          subst hst
          exact ⟨⟨hmap, hinv.2.1, hinv.2.2⟩, drawLoop_range G HR _ _ _ hmint⟩
        | true =>
          rw [hf] at hrun
          simp only [if_pos rfl, Option.some.injEq, Prod.mk.injEq] at hrun
          obtain ⟨he, hst⟩ := hrun
          exact ⟨⟨hmap, hinv.2.1, hinv.2.2⟩, hmint⟩
  · intro st a f fx hinv
    exact ⟨hinv.1, hinv.2.1, hinv.2.2⟩

/-- Witness for C10: the modelled generator honors the range contract, and
the startup conjunct applied to a fresh state with two discovered
scenarios. -/
theorem seeder_seed_range_witness :
    SeedsInv ((onStartup stdRNG
        { use_fixed_seed := false, initial_seed := some "a",
          discovered_seed := none, scheduled_seed := none, scheduled_state := none,
          scenarios := [], history := [], rng := ((0 : Nat), (0 : Nat)) }
        ["s1", "s2"]).getD
        { use_fixed_seed := false, initial_seed := none,
          discovered_seed := none, scheduled_seed := none, scheduled_state := none,
          scenarios := [], history := [], rng := ((0 : Nat), (0 : Nat)) }) := by
  have hr : ∀ s : Nat × Nat, InSeedRange (generateSeed stdRNG s).1 := by
    intro s
    constructor
    · simp [generateSeed, stdRNG, MIN_SEED]
    · have : ((s.1 + 1) * 2 ^ 32 + s.2) % (MAX_SEED - MIN_SEED + 1) <
        MAX_SEED - MIN_SEED + 1 := Nat.mod_lt _ (by decide)
      simp only [generateSeed, stdRNG]
      simp only [MIN_SEED, MAX_SEED] at this ⊢
      omega
  have hinv0 : SeedsInv
      ({ use_fixed_seed := false, initial_seed := some "a",
         discovered_seed := none, scheduled_seed := none, scheduled_state := none,
         scenarios := [], history := [], rng := ((0 : Nat), (0 : Nat)) } :
        SeederState (Nat × Nat)) := by
    refine ⟨?_, ?_, ?_⟩ <;> simp [SeedsInv]
  have hrun : ∃ st', onStartup stdRNG
      { use_fixed_seed := false, initial_seed := some "a",
        discovered_seed := none, scheduled_seed := none, scheduled_state := none,
        scenarios := [], history := [], rng := ((0 : Nat), (0 : Nat)) }
      ["s1", "s2"] = some st' := ⟨_, rfl⟩
  obtain ⟨st', hst'⟩ := hrun
  rw [hst']
  exact (seeder_seed_range (Nat × Nat) stdRNG hr).1 _ ["s1", "s2"] st' hinv0 hst'

/-! ### Repeater helper lemmas -/

theorem countP_flatten_replicate {α : Type} (p : α → Bool) (n : Nat) (l : List α) :
    ((List.replicate n l).flatten.countP p) = n * l.countP p := by
  induction n with
  | zero => simp
  | succ m ih =>
    simp only [List.replicate_succ, List.flatten_cons, List.countP_append, ih]
    ring

theorem mem_flatten_replicate {α : Type} (n : Nat) (l : List α) (x : α)
    (h : x ∈ (List.replicate n l).flatten) : x ∈ l := by
  rcases List.mem_flatten.mp h with ⟨l', hl', hx⟩
  rwa [List.eq_of_mem_replicate hl'] at hx

theorem onScenarioEnd_no_trigger (st : RepeaterState) (sc : Scenario)
    (h : st.repeats ≤ 1 ∨ st.repeat_scenario_id = some sc.unique_id) :
    onScenarioEnd st sc = (st, []) := by
  rcases h with h | h
  · simp [onScenarioEnd, h]
  · by_cases h1 : st.repeats ≤ 1
    · simp [onScenarioEnd, h1]
    · simp [onScenarioEnd, h1, h]

theorem onScenarioEnd_trigger (st : RepeaterState) (sc : Scenario)
    (h2 : 2 ≤ st.repeats) (hg : st.repeat_scenario_id ≠ some sc.unique_id) :
    onScenarioEnd st sc =
      ({ st with repeat_scenario_id := some sc.unique_id },
       List.flatten (List.replicate (st.repeats - 1).toNat
         ((if st.repeats_delay > 0 then [RepeaterCall.sleep st.repeats_delay] else [])
           ++ [RepeaterCall.schedule sc]))) := by
  have h1 : ¬ st.repeats ≤ 1 := by omega
  simp [onScenarioEnd, h1, hg]

theorem onScenarioEnd_trigger_any (st : RepeaterState) (sc : Scenario)
    (h2 : 2 ≤ st.repeats) (hg : st.repeat_scenario_id ≠ some sc.unique_id) :
    (onScenarioEnd st sc).2.any RepeaterCall.isSchedule = true := by
  rw [onScenarioEnd_trigger st sc h2 hg]
  apply List.any_eq_true.mpr
  refine ⟨RepeaterCall.schedule sc, ?_, rfl⟩
  apply List.mem_flatten.mpr
  refine ⟨(if st.repeats_delay > 0 then [RepeaterCall.sleep st.repeats_delay] else [])
    ++ [RepeaterCall.schedule sc], ?_, by simp⟩
  apply List.mem_replicate.mpr
  refine ⟨?_, rfl⟩
  omega

/-! ### C2: repeat scheduling counts -/

/-- C2: on a terminal pass or fail completion not blocked by the same-id
guard, with `repeats = N ≥ 2` the repeater emits exactly `N - 1` schedule
calls, each passing that scenario; with `repeatsDelay = 0` it emits no
sleep call, and with `repeatsDelay = d > 0` exactly `N - 1` sleeps of `d`,
one awaited before each schedule call; with `repeats = 1` it emits
nothing. -/
theorem repeater_schedule_counts :
    ∀ (st : RepeaterState) (sc : Scenario) (ev : CompletionEvent),
      (ev = CompletionEvent.passed sc ∨ ev = CompletionEvent.failed sc) →
      st.repeat_scenario_id ≠ some sc.unique_id →
      (2 ≤ st.repeats →
        (dispatchEnd st ev).2 =
          List.flatten (List.replicate (st.repeats - 1).toNat
            ((if st.repeats_delay > 0 then [RepeaterCall.sleep st.repeats_delay] else [])
              ++ [RepeaterCall.schedule sc])) ∧
        (dispatchEnd st ev).2.countP RepeaterCall.isSchedule = (st.repeats - 1).toNat ∧
        (∀ c ∈ (dispatchEnd st ev).2, c.isSchedule = true → c = RepeaterCall.schedule sc) ∧
        (st.repeats_delay = 0 → (dispatchEnd st ev).2.countP RepeaterCall.isSleep = 0) ∧
        (0 < st.repeats_delay →
          (dispatchEnd st ev).2.countP RepeaterCall.isSleep = (st.repeats - 1).toNat ∧
          (dispatchEnd st ev).2 =
            List.flatten (List.replicate (st.repeats - 1).toNat
              [RepeaterCall.sleep st.repeats_delay, RepeaterCall.schedule sc]))) ∧
      (st.repeats = 1 → dispatchEnd st ev = (st, [])) := by
  intro st sc ev hterm hguard
  have hdis : dispatchEnd st ev = onScenarioEnd st sc := by
    rcases hterm with h | h <;> rw [h] <;> rfl
  constructor
  · intro h2
    rw [hdis, onScenarioEnd_trigger st sc h2 hguard]
    refine ⟨rfl, ?_, ?_, ?_, ?_⟩
    · have hc : ((if st.repeats_delay > 0 then [RepeaterCall.sleep st.repeats_delay] else [])
          ++ [RepeaterCall.schedule sc]).countP RepeaterCall.isSchedule = 1 := by
        by_cases hd : st.repeats_delay > 0 <;>
          simp [hd, List.countP_cons, List.countP_nil, RepeaterCall.isSchedule,
            RepeaterCall.isSleep]
      rw [countP_flatten_replicate, hc, Nat.mul_one]
    · intro c hc hcs
      have hmem := mem_flatten_replicate _ _ _ hc
      by_cases hd : st.repeats_delay > 0 <;> simp [hd] at hmem
      · rcases hmem with h | h
        · rw [h] at hcs
          simp [RepeaterCall.isSchedule] at hcs
        · exact h
      · exact hmem
    · intro hd0
      have hd : ¬ st.repeats_delay > 0 := by rw [hd0]; exact lt_irrefl 0
      have hc : ((if st.repeats_delay > 0 then [RepeaterCall.sleep st.repeats_delay] else [])
          ++ [RepeaterCall.schedule sc]).countP RepeaterCall.isSleep = 0 := by
        simp [hd, List.countP_cons, List.countP_nil, RepeaterCall.isSleep]
      rw [countP_flatten_replicate, hc, Nat.mul_zero]
    · intro hd
      constructor
      · have hc : ((if st.repeats_delay > 0 then [RepeaterCall.sleep st.repeats_delay] else [])
            ++ [RepeaterCall.schedule sc]).countP RepeaterCall.isSleep = 1 := by
          simp [hd, List.countP_cons, List.countP_nil, RepeaterCall.isSleep,
            RepeaterCall.isSchedule]
        rw [countP_flatten_replicate, hc, Nat.mul_one]
      · simp [hd]
  · intro h1
    rw [hdis]
    exact onScenarioEnd_no_trigger st sc (Or.inl (by omega))

/-- Witness for C2: `repeats = 3`, `repeatsDelay = 0`, fresh guard, on a
passed completion. -/
theorem repeater_schedule_counts_witness :
    (dispatchEnd { repeats := 3, repeats_delay := 0, repeat_scenario_id := none }
        (CompletionEvent.passed { unique_id := "s", path := "p",
                                  skipped := false, special := false })).2 =
      List.flatten (List.replicate ((3 : Int) - 1).toNat
        ((if (0 : Rat) > 0 then [RepeaterCall.sleep 0] else [])
          ++ [RepeaterCall.schedule { unique_id := "s", path := "p",
                                      skipped := false, special := false }])) :=
  ((repeater_schedule_counts
      { repeats := 3, repeats_delay := 0, repeat_scenario_id := none }
      { unique_id := "s", path := "p", skipped := false, special := false }
      _ (Or.inl rfl) (by decide)).1 (by decide)).1

/-! ### C5: skipped completions and the same-id guard -/

/-- C5: a skipped completion never reaches the repeater (no schedule, no
state change); whenever a schedule call happens the completion was a
terminal pass/fail whose id differed from the remembered trigger id, and
that id becomes the remembered one; a non-triggering event leaves the
state unchanged; hence from any state whose remembered trigger id is `u`,
a run of completions all carrying `u` produces no schedule call at all. -/
theorem repeater_trigger_guard :
    (∀ (st : RepeaterState) (sc : Scenario),
       dispatchEnd st (CompletionEvent.skippedEv sc) = (st, [])) ∧
    (∀ (st : RepeaterState) (ev : CompletionEvent),
       (dispatchEnd st ev).2.any RepeaterCall.isSchedule = true →
       (∀ sc, ev ≠ CompletionEvent.skippedEv sc) ∧
       st.repeat_scenario_id ≠ some ev.scenario.unique_id ∧
       (dispatchEnd st ev).1.repeat_scenario_id = some ev.scenario.unique_id) ∧
    (∀ (st : RepeaterState) (ev : CompletionEvent),
       (dispatchEnd st ev).2.any RepeaterCall.isSchedule = false →
       (dispatchEnd st ev).1 = st) ∧
    (∀ (st : RepeaterState) (u : String) (evs : List CompletionEvent),
       st.repeat_scenario_id = some u →
       (∀ e ∈ evs, e.scenario.unique_id = u) →
       ∀ tr ∈ (processEvents st evs).2, tr.any RepeaterCall.isSchedule = false) := by
  have hsk : ∀ (st : RepeaterState) (sc : Scenario),
      dispatchEnd st (CompletionEvent.skippedEv sc) = (st, []) := by
    intro st sc
    rfl
  have hend : ∀ (st : RepeaterState) (sc : Scenario),
      (onScenarioEnd st sc).2.any RepeaterCall.isSchedule = true →
      st.repeat_scenario_id ≠ some sc.unique_id ∧
      (onScenarioEnd st sc).1.repeat_scenario_id = some sc.unique_id := by
    intro st sc hany
    by_cases h1 : st.repeats ≤ 1
    · rw [onScenarioEnd_no_trigger st sc (Or.inl h1)] at hany
      simp at hany
    · by_cases hg : st.repeat_scenario_id = some sc.unique_id
      · rw [onScenarioEnd_no_trigger st sc (Or.inr hg)] at hany
        simp at hany
      · refine ⟨hg, ?_⟩
        rw [onScenarioEnd_trigger st sc (by omega) hg]
  have htrig : ∀ (st : RepeaterState) (ev : CompletionEvent),
      (dispatchEnd st ev).2.any RepeaterCall.isSchedule = true →
      (∀ sc, ev ≠ CompletionEvent.skippedEv sc) ∧
      st.repeat_scenario_id ≠ some ev.scenario.unique_id ∧
      (dispatchEnd st ev).1.repeat_scenario_id = some ev.scenario.unique_id := by
    intro st ev hany
    cases ev with
    | passed sc =>
      have h := hend st sc hany
      exact ⟨(fun sc' hc => by cases hc), h.1, h.2⟩
    | failed sc =>
      have h := hend st sc hany
      exact ⟨(fun sc' hc => by cases hc), h.1, h.2⟩
    | skippedEv sc =>
      rw [hsk st sc] at hany
      simp at hany
  have hstay : ∀ (st : RepeaterState) (ev : CompletionEvent),
      (dispatchEnd st ev).2.any RepeaterCall.isSchedule = false →
      (dispatchEnd st ev).1 = st := by
    intro st ev hany
    cases ev with
    | skippedEv sc => rw [hsk st sc]
    | passed sc =>
      by_cases h1 : st.repeats ≤ 1
      · rw [show dispatchEnd st (CompletionEvent.passed sc) = onScenarioEnd st sc from rfl,
            onScenarioEnd_no_trigger st sc (Or.inl h1)]
      · by_cases hg : st.repeat_scenario_id = some sc.unique_id
        · rw [show dispatchEnd st (CompletionEvent.passed sc) = onScenarioEnd st sc from rfl,
              onScenarioEnd_no_trigger st sc (Or.inr hg)]
        · exfalso
          have := onScenarioEnd_trigger_any st sc (by omega) hg
          rw [show dispatchEnd st (CompletionEvent.passed sc) = onScenarioEnd st sc from rfl]
            at hany
          rw [this] at hany
          cases hany
    | failed sc =>
      by_cases h1 : st.repeats ≤ 1
      · rw [show dispatchEnd st (CompletionEvent.failed sc) = onScenarioEnd st sc from rfl,
            onScenarioEnd_no_trigger st sc (Or.inl h1)]
      · by_cases hg : st.repeat_scenario_id = some sc.unique_id
        · rw [show dispatchEnd st (CompletionEvent.failed sc) = onScenarioEnd st sc from rfl,
              onScenarioEnd_no_trigger st sc (Or.inr hg)]
        · exfalso
          have := onScenarioEnd_trigger_any st sc (by omega) hg
          rw [show dispatchEnd st (CompletionEvent.failed sc) = onScenarioEnd st sc from rfl]
            at hany
          rw [this] at hany
          cases hany
  refine ⟨hsk, htrig, hstay, ?_⟩
  intro st u evs
  induction evs generalizing st with
  | nil =>
    intro _ _ tr htr
    simp [processEvents] at htr
  | cons e es ih =>
    intro hrid hall tr htr
    have heq : e.scenario.unique_id = u := hall e (List.mem_cons_self e es)
    have hnot : (dispatchEnd st e).2.any RepeaterCall.isSchedule = false := by
      by_contra hc
      have hc' : (dispatchEnd st e).2.any RepeaterCall.isSchedule = true := by
        cases h : (dispatchEnd st e).2.any RepeaterCall.isSchedule
        · exact absurd h hc
        · rfl
      have := (htrig st e hc').2.1
      rw [heq, hrid] at this
      exact this rfl
    have hst : (dispatchEnd st e).1 = st := hstay st e hnot
    simp only [processEvents, List.mem_cons] at htr
    rcases htr with htr | htr
    · rw [htr]
      exact hnot
    · refine ih ((dispatchEnd st e).1) ?_ ?_ tr htr
      · rw [hst]
        exact hrid
      · intro e' he'
        exact hall e' (List.mem_cons_of_mem _ he')

/-- Witness for C5: the until-different-id conjunct applied to a state
mid-repeat-cycle for `"s"` and a run of three same-id completions (one of
each kind). -/
theorem repeater_trigger_guard_witness :
    ∀ tr ∈ (processEvents { repeats := 3, repeats_delay := 0,
                            repeat_scenario_id := some "s" }
        [CompletionEvent.passed { unique_id := "s", path := "p",
                                  skipped := false, special := false },
         CompletionEvent.failed { unique_id := "s", path := "p",
                                  skipped := false, special := false },
         CompletionEvent.skippedEv { unique_id := "s", path := "p",
                                     skipped := false, special := false }]).2,
      tr.any RepeaterCall.isSchedule = false :=
  repeater_trigger_guard.2.2.2
    { repeats := 3, repeats_delay := 0, repeat_scenario_id := some "s" } "s" _
    rfl (by decide)

/-! ### C6: argument validation -/

/-- C6: the three sequential validation checks raise, in order, their
fixed messages — `repeats < 1`; then `repeatsDelay < 0`; then
`repeatsDelay > 0` with `repeats ≤ 1` — and every valid combination
passes with no error. -/
theorem repeater_validation :
    ∀ (r : Int) (d : Rat),
      (r < 1 → repeaterOnArgParsed r d = Except.error "--repeats must be >= 1") ∧
      (1 ≤ r → d < 0 →
        repeaterOnArgParsed r d = Except.error "--repeats-delay must be >= 0.0") ∧
      (1 ≤ r → 0 ≤ d → 0 < d → r ≤ 1 →
        repeaterOnArgParsed r d =
          Except.error "--repeats-delay must be used with --repeats > 1") ∧
      (1 ≤ r → 0 ≤ d → ¬(0 < d ∧ r ≤ 1) → repeaterOnArgParsed r d = Except.ok ()) := by
  intro r d
  refine ⟨?_, ?_, ?_, ?_⟩
  · intro h
    simp [repeaterOnArgParsed, h]
  · intro h1 h2
    have hr : ¬ r < 1 := by omega
    simp [repeaterOnArgParsed, hr, h2]
  · intro h1 h2 h3 h4
    have hr : ¬ r < 1 := by omega
    have hd : ¬ d < 0 := not_lt.mpr h2
    simp [repeaterOnArgParsed, hr, hd, h3, h4]
  · intro h1 h2 h3
    have hr : ¬ r < 1 := by omega
    have hd : ¬ d < 0 := not_lt.mpr h2
    simp [repeaterOnArgParsed, hr, hd, h3]

/-- Witness for C6: each validation branch at a concrete input. -/
theorem repeater_validation_witness :
    repeaterOnArgParsed 0 0 = Except.error "--repeats must be >= 1" ∧
    repeaterOnArgParsed 1 (-1) = Except.error "--repeats-delay must be >= 0.0" ∧
    repeaterOnArgParsed 1 1 =
      Except.error "--repeats-delay must be used with --repeats > 1" ∧
    repeaterOnArgParsed 3 1 = Except.ok () :=
  ⟨(repeater_validation 0 0).1 (by norm_num),
   (repeater_validation 1 (-1)).2.1 (by norm_num) (by norm_num),
   (repeater_validation 1 1).2.2.1 (by norm_num) (by norm_num) (by norm_num) (by norm_num),
   (repeater_validation 3 1).2.2.2 (by norm_num) (by norm_num)
     (by
       intro h
       have : (3 : Int) ≤ 1 := h.2
       omega)⟩

/-! ### C8: two-pass startup selection -/

theorem skipperPass1_ok (P : Scenario → Bool) :
    ∀ l : List Scenario,
      skipperPass1 P false l =
        Except.ok
          (l.filter (fun sc => ! P sc),
           l.filter P,
           ((l.filter (fun sc => ! P sc)).filter (fun sc => sc.special)).map
             Scenario.unique_id,
           ((l.filter (fun sc => ! P sc)).filter (fun sc => sc.skipped)).map
             Scenario.unique_id) := by
  intro l
  induction l with
  | nil => rfl
  | cons sc rest ih =>
    by_cases hP : P sc
    · simp [skipperPass1, hP, ih, Except.map, List.filter_cons]
    · cases hsp : sc.special <;> cases hsk : sc.skipped <;>
        simp [skipperPass1, hP, hsp, hsk, ih, Except.map, List.filter_cons]

theorem skipperPass2_eq (specials : List String) :
    ∀ l : List Scenario,
      skipperPass2 specials l =
        (l.filter (fun sc => decide (sc.unique_id ∈ specials)),
         l.filter (fun sc => decide (sc.unique_id ∉ specials))) := by
  intro l
  induction l with
  | nil => rfl
  | cons sc rest ih =>
    by_cases hm : sc.unique_id ∈ specials <;>
      simp [skipperPass2, hm, ih, List.filter_cons]

/-- C8: startup selection makes a first pass ignoring exactly the
scenarios the selection predicate deems ignored and collecting the ids
of the surviving scenarios marked exclusive; a second pass over the
survivors happens exactly when at least one exclusive scenario was
found, ignoring every survivor whose id is not exclusive, so only
exclusive scenarios remain pending. -/
theorem skipper_two_pass (P : Scenario → Bool) (pending : List Scenario) :
    skipperOnStartup P false pending =
      (let surv := pending.filter fun sc => ! P sc
       let specials := (surv.filter fun sc => sc.special).map Scenario.unique_id
       Except.ok
        (if specials.length > 0 then
           surv.filter (fun sc => decide (sc.unique_id ∈ specials))
         else surv,
         pending.filter P,
         if specials.length > 0 then
           surv.filter (fun sc => decide (sc.unique_id ∉ specials))
         else [],
         specials)) := by
  by_cases hlen :
      (((pending.filter fun sc => ! P sc).filter fun sc => sc.special).map
        Scenario.unique_id).length > 0
  · rw [skipperOnStartup, skipperPass1_ok]
    dsimp only [Except.map]
    rw [if_pos hlen, if_pos hlen, if_pos hlen, skipperPass2_eq]
  · rw [skipperOnStartup, skipperPass1_ok]
    dsimp only [Except.map]
    rw [if_neg hlen, if_neg hlen, if_neg hlen]

/-! ### C7: the ordering example -/

set_option maxRecDepth 100000 in
/-- C7: on the six example paths, the ordering engine yields exactly the
required sequence — root files in natural order first, then the
subdirectories in natural order of name — whatever the input order (the
embedded sort is a pure function, so the input list is never mutated). -/
theorem orderer_example :
    ∀ l : List String, l.Perm targetPaths → sortScenarios l = targetPaths := by
  have key : ∀ x ∈ targetPaths.permutations', sortScenarios x = targetPaths := by decide
  intro l hl
  exact key l (List.mem_permutations'.mpr hl)

/-- Witness for C7: a shuffled input order. -/
theorem orderer_example_witness :
    sortScenarios
      ["scenarios/directory/scn.py", "scenarios/dir1/scn1.py", "scenarios/dir1/scn2.py",
       "scenarios/dir2/scn2.py", "scenarios/scn2.py", "scenarios/scn10.py"] =
      targetPaths :=
  orderer_example _ (by decide)

end Vedro
